import Mathlib

/-!
Verification of the isolated-execution and measurement core of
`optimum-benchmark`, shallowly embedded from:
  * `src/benchmark/base.py`   (`Benchmark`: `track`, `finalize`, `merge`, `perfs`)
  * `optimum_benchmark/launchers/process/launcher.py`
    (`ProcessLauncher.launch` decode phase and the child-side `target`).

Python runtime behaviour is made explicit: division raises
`ZeroDivisionError` when the denominator is zero, `assert` raises
`AssertionError` with its message, floats are modelled as rationals,
and the `float(-inf)` sentinel for an unfinalized throughput is a
distinguished constructor of `PyFloat`.
-/

/-- Errors a modelled Python computation can raise.  `propagated` stands
for an arbitrary exception raised by user code (the benchmarked unit of
work) flowing through unchanged, identified by its message. -/
inductive PyErr where
  | zeroDivisionError
  | assertionError (msg : String)
  | valueError (msg : String)
  | propagated (msg : String)
deriving DecidableEq, Repr

/-- A Python float as used for `Benchmark.throughput`: either the
`float(-inf)` sentinel installed by the default field value, or an
actual rational value. -/
inductive PyFloat where
  | negInf
  | val (q : ℚ)
deriving DecidableEq, Repr

/-- `x > 0.` on a `PyFloat` (the comparison performed by the `assert`
inside `Benchmark.merge`); `-inf > 0` is false. -/
def PyFloat.gtZero : PyFloat → Bool
  | .negInf => false
  | .val q => decide (0 < q)

/-- Python division: raises `ZeroDivisionError` on a zero denominator,
otherwise returns the exact quotient. -/
def pydiv (a b : ℚ) : Except PyErr ℚ :=
  if b = 0 then .error .zeroDivisionError else .ok (a / b)

/-- `@dataclass class Benchmark` from `src/benchmark/base.py`:
`latencies: List[float] = []`, `throughput: Optional[float] = float(-inf)`. -/
structure Benchmark where
  latencies : List ℚ := []
  throughput : PyFloat := .negInf
deriving DecidableEq, Repr

/-- `Benchmark.num_runs = len(self.latencies)`. -/
def Benchmark.num_runs (b : Benchmark) : ℕ :=
  b.latencies.length

/-- `Benchmark.runs_duration = sum(self.latencies)`. -/
def Benchmark.runs_duration (b : Benchmark) : ℚ :=
  b.latencies.sum

/-- `Benchmark.perfs`: builds the row
`{"mean_latency": runs_duration / num_runs, "throughput": throughput}`.
The division is Python division, so with zero recorded samples it
raises `ZeroDivisionError` before any value is produced. -/
def Benchmark.perfs (b : Benchmark) : Except PyErr (ℚ × PyFloat) := do
  let mean ← pydiv b.runs_duration (b.num_runs : ℚ)
  return (mean, b.throughput)

/-- Outcome of the single unit of work wrapped by `Benchmark.track`:
it either completes normally or raises an exception. -/
inductive UnitOutcome where
  | ok
  | raises (msg : String)
deriving DecidableEq, Repr

/-- `Benchmark.track(device)` as a context manager.  The timing inputs
are explicit: `startNs`/`endNs` are the `time.perf_counter_ns()` values
around a CPU-timed unit and `elapsedMs` is
`start_event.elapsed_time(end_event)` for a CUDA-timed unit.  The
result pairs the post-scope `Benchmark` state with the exception, if
any, propagating out of the scope.  For `"cpu"`/`"cuda"`, a normal
completion appends one sample (`(end-start)/1e9` resp. `elapsed/1e3`);
a unit that raises skips the append (the generator has no
`try/finally`) and the error propagates.  Any other device raises
`ValueError` before the unit runs. -/
def Benchmark.track (b : Benchmark) (device : String) (u : UnitOutcome)
    (startNs endNs : ℕ) (elapsedMs : ℚ) : Benchmark × Option PyErr :=
  if device = "cpu" then
    match u with
    | .raises e => (b, some (.propagated e))
    | .ok => ({ b with latencies := b.latencies ++ [((endNs : ℚ) - (startNs : ℚ)) / 1000000000] }, none)
  else if device = "cuda" then
    match u with
    | .raises e => (b, some (.propagated e))
    | .ok => ({ b with latencies := b.latencies ++ [elapsedMs / 1000] }, none)
  else
    (b, some (.valueError ("Unsupported device type " ++ device)))

/-- `Benchmark.finalize(benchmark_duration)`:
`self.throughput = self.num_runs / benchmark_duration`, with Python
division semantics (raises `ZeroDivisionError` iff the duration is 0;
no other precondition is checked). -/
def Benchmark.finalize (b : Benchmark) (benchmark_duration : ℚ) :
    Except PyErr Benchmark := do
  let t ← pydiv (b.num_runs : ℚ) benchmark_duration
  return { b with throughput := .val t }

/-- The `for b in benchmarks` loop of `Benchmark.merge`: checks
`assert len(b.latencies) > 0` then `assert b.throughput > 0.` for each
input in order, accumulating `latencies += b.latencies` and
`throughputs.append(b.throughput)`. -/
def mergeCollect : List Benchmark → Except PyErr (List ℚ × List ℚ)
  | [] => .ok ([], [])
  | b :: rest =>
    if ¬ b.latencies.length > 0 then
      .error (.assertionError "Empty benchmark (0 latency measurements recorded)")
    else
      match b.throughput with
      | .negInf => .error (.assertionError "Benchmark has not been finalized, throughput < 0")
      | .val q =>
        if ¬ 0 < q then
          .error (.assertionError "Benchmark has not been finalized, throughput < 0")
        else do
          let (ls, ts) ← mergeCollect rest
          return (b.latencies ++ ls, q :: ts)

/-- `Benchmark.merge(benchmarks)`: runs the checked accumulation loop,
then computes `mean_throughput = sum(throughputs) / len(throughputs)`
with Python division (so an empty input list reaches a division by
zero) and returns `Benchmark(latencies, mean_throughput)`. -/
def Benchmark.merge (benchmarks : List Benchmark) : Except PyErr Benchmark :=
  match mergeCollect benchmarks with
  | .error e => .error e
  | .ok (latencies, throughputs) =>
    match pydiv throughputs.sum (throughputs.length : ℚ) with
    | .error e => .error e
    | .ok mean_throughput =>
      .ok { latencies := latencies, throughput := .val mean_throughput }

/-- The mapping form a report crosses the process boundary in
(`report.to_dict()` / `BenchmarkReport.from_dict`). -/
abbrev ReportDict := List (String × String)

/-- `BenchmarkReport`: opaque structured value, modelled by its mapping
representation. -/
structure BenchmarkReport where
  data : ReportDict
deriving DecidableEq, Repr

/-- `BenchmarkReport.from_dict`. -/
def BenchmarkReport.from_dict (d : ReportDict) : BenchmarkReport :=
  ⟨d⟩

/-- `report.to_dict()`. -/
def BenchmarkReport.to_dict (r : BenchmarkReport) : ReportDict :=
  r.data

/-- A message the child can place on the channel: the dict shapes
`{"traceback": text}`, `{"exception": text}`, `{"report": payload}`,
or any other value (`other`). -/
inductive ChildMsg where
  | tracebackMsg (text : String)
  | exceptionMsg (text : String)
  | reportMsg (payload : ReportDict)
  | other (text : String)
deriving DecidableEq, Repr

/-- The classified failures `ProcessLauncher.launch` can raise after
joining the child.  `childProcessCrashed` and `noResponse` and
`unexpectedResponse` are the three distinct `RuntimeError` raise sites
(distinguished by their messages); `childProcessError` is the
`ChildProcessError` raised for both traceback and exception
messages. -/
inductive LaunchError where
  | childProcessCrashed (code : ℤ)
  | noResponse
  | childProcessError (text : String)
  | unexpectedResponse (text : String)
deriving DecidableEq, Repr

/-- The decode phase of `ProcessLauncher.launch` (lines 43-63), run
after `isolated_process.join()`: first the exit-code check, then the
`poll()` check, then the message-shape dispatch in the order
traceback, exception, report, other. -/
def launchDecode (exitcode : ℤ) (channel : Option ChildMsg) :
    Except LaunchError BenchmarkReport :=
  if exitcode ≠ 0 then
    .error (.childProcessCrashed exitcode)
  else
    match channel with
    | none => .error .noResponse
    | some msg =>
      match msg with
      | .tracebackMsg t => .error (.childProcessError t)
      | .exceptionMsg t => .error (.childProcessError t)
      | .reportMsg p => .ok (BenchmarkReport.from_dict p)
      | .other s => .error (.unexpectedResponse s)

/-- Outcome of `worker(*worker_args)` inside the child: normal return
of a report (carried by its `to_dict()` payload), or an exception
caught by `except Exception` (carried by its `traceback.format_exc()`
text). -/
inductive WorkerOutcome where
  | ok (payload : ReportDict)
  | err (tracebackText : String)
deriving DecidableEq, Repr

/-- Final observable state of a terminating child: the terminal
message it sent, its exit code, and whether it closed its end of the
channel. -/
structure HarnessResult where
  msg : ChildMsg
  exitCode : ℤ
  channelClosed : Bool
deriving DecidableEq, Repr

/-- The `try/except/else/finally` block of `target` (lines 88-99): on
normal return send `{"report": report.to_dict()}`, on any `Exception`
send `{"traceback": traceback.format_exc()}`; the `finally` always
closes the connection and calls `exit(0)`. -/
def runningStep : WorkerOutcome → HarnessResult
  | .ok payload => ⟨.reportMsg payload, 0, true⟩
  | .err tb => ⟨.tracebackMsg tb, 0, true⟩

/-- Message text of the `RuntimeError` built for a protocol violation
in the awaiting-start loop of `target`. -/
def violationText (v : String) : String :=
  "Isolated process received an unexpected response: " ++ v

/-- The `while True` receive loop of `target` (lines 72-79), applied
to the finite sequence of values arriving on the channel: each value
other than `"start"` is answered with `{"exception": str(RuntimeError(...))}`
and the loop continues; `"start"` breaks out.  Returns the replies
sent and whether the loop was exited (i.e. the child left
`AwaitingStart`). -/
def awaitStart : List String → List ChildMsg × Bool
  | [] => ([], false)
  | v :: rest =>
    if v = "start" then ([], true)
    else
      let r := awaitStart rest
      (ChildMsg.exceptionMsg (violationText v) :: r.1, r.2)

/-- The whole child-side `target` function, over the sequence of
values received while awaiting start and the worker's outcome: the
replies sent during the receive loop, and — only if `"start"` was
received — the terminal result of running the worker.  `none` means
the child is still blocked in `AwaitingStart` and never invoked the
worker. -/
def target (incoming : List String) (outcome : WorkerOutcome) :
    List ChildMsg × Option HarnessResult :=
  let r := awaitStart incoming
  if r.2 then (r.1, some (runningStep outcome)) else (r.1, none)

/-! ## Claim theorems -/

/-- C1: after joining the child, `launch` decodes in this order: a
nonzero exit code fails with `ChildProcessCrashed(code)` regardless of
any pending message; with exit code 0, an empty channel fails with
`NoResponse`; a `Traceback{text}` or `Exception{text}` message fails
with `ChildProcessError(text)`; a `Report{payload}` message returns the
`BenchmarkReport` deserialized from the payload; any other shape fails
with `UnexpectedResponse`. -/
theorem launch_decode_order :
    (∀ (c : ℤ) (ch : Option ChildMsg), c ≠ 0 →
        launchDecode c ch = .error (.childProcessCrashed c))
    ∧ launchDecode 0 none = .error .noResponse
    ∧ (∀ t, launchDecode 0 (some (.tracebackMsg t)) = .error (.childProcessError t))
    ∧ (∀ t, launchDecode 0 (some (.exceptionMsg t)) = .error (.childProcessError t))
    ∧ (∀ p, launchDecode 0 (some (.reportMsg p)) = .ok (BenchmarkReport.from_dict p))
    ∧ (∀ s, launchDecode 0 (some (.other s)) = .error (.unexpectedResponse s)) := by
  refine ⟨?_, rfl, fun t => rfl, fun t => rfl, fun p => rfl, fun s => rfl⟩
  intro c ch hc
  simp [launchDecode, hc]

/-- Witness for C1: crash code 137 wins over a pending report. -/
theorem launch_decode_order_witness :
    launchDecode 137 (some (.reportMsg [("ok", "true")])) =
      .error (.childProcessCrashed 137) :=
  launch_decode_order.1 137 (some (.reportMsg [("ok", "true")])) (by decide)

/-- C3: for both supported device kinds, a scoped measurement whose
unit completes normally appends exactly one latency sample (the
device-appropriate elapsed time), and a unit that raises leaves the
latency sequence unchanged while the original error propagates. -/
theorem track_appends_once_or_propagates (b : Benchmark) (s e : ℕ)
    (el : ℚ) (msg : String) :
    Benchmark.track b "cpu" .ok s e el =
      ({ b with latencies := b.latencies ++ [((e : ℚ) - (s : ℚ)) / 1000000000] }, none)
    ∧ Benchmark.track b "cpu" (.raises msg) s e el = (b, some (.propagated msg))
    ∧ Benchmark.track b "cuda" .ok s e el =
      ({ b with latencies := b.latencies ++ [el / 1000] }, none)
    ∧ Benchmark.track b "cuda" (.raises msg) s e el = (b, some (.propagated msg)) := by
  refine ⟨rfl, rfl, ?_, ?_⟩ <;> simp [Benchmark.track]

/-- Counterexample for C4: `finalize` on a benchmark with zero runs and
a positive duration does not fail with any `NotFinalizable`-style
error — it succeeds, silently setting `throughput = 0`. -/
theorem finalize_no_guard_counterexample :
    Benchmark.finalize { latencies := [], throughput := .negInf } 2 =
      .ok { latencies := [], throughput := .val 0 } := by
  simp [Benchmark.finalize, pydiv, Benchmark.num_runs]

/-- C4 (amended): `finalize(d)` performs no precondition check; it
fails only when `d = 0`, and then with the raw `ZeroDivisionError`
(so a division by zero is surfaced as an error, never silently
produced); for any `d ≠ 0` it succeeds and silently sets
`throughput = num_runs / d` — in particular `throughput = 0` when
`num_runs = 0`. -/
theorem finalize_behavior (b : Benchmark) (d : ℚ) :
    (d = 0 → Benchmark.finalize b d = .error .zeroDivisionError)
    ∧ (d ≠ 0 → Benchmark.finalize b d =
        .ok { b with throughput := .val ((b.num_runs : ℚ) / d) })
    ∧ (b.num_runs = 0 → d ≠ 0 → Benchmark.finalize b d =
        .ok { b with throughput := .val 0 }) := by
  refine ⟨fun h0 => ?_, fun hne => ?_, fun hn hne => ?_⟩
  · simp [Benchmark.finalize, pydiv, h0]
  · simp [Benchmark.finalize, pydiv, hne]
  · simp [Benchmark.finalize, pydiv, hne, hn]

/-- Witness for C4 (amended), at concrete inputs. -/
theorem finalize_behavior_witness :
    Benchmark.finalize { latencies := [], throughput := .negInf } 0 =
      .error .zeroDivisionError
    ∧ Benchmark.finalize { latencies := [], throughput := .negInf } 2 =
      .ok { latencies := ([] : List ℚ), throughput := .val 0 } :=
  ⟨(finalize_behavior { latencies := [], throughput := .negInf } 0).1 rfl,
   (finalize_behavior { latencies := [], throughput := .negInf } 2).2.2 rfl
     (by norm_num)⟩

/-- C7: with at least one run and a positive duration, `finalize(d)`
sets `throughput` to exactly `num_runs / d`, which is positive; on
latencies `[0.1, 0.2, 0.2]` with `d = 2`, the throughput is `1.5`. -/
theorem finalize_exact_and_positive :
    (∀ (b : Benchmark) (d : ℚ), 0 < d → 0 < b.num_runs →
      Benchmark.finalize b d =
        .ok { b with throughput := .val ((b.num_runs : ℚ) / d) }
      ∧ 0 < (b.num_runs : ℚ) / d)
    ∧ Benchmark.finalize
        { latencies := [1/10, 2/10, 2/10], throughput := .negInf } 2 =
      .ok { latencies := [1/10, 2/10, 2/10], throughput := .val (3/2) } := by
  constructor
  · intro b d hd hn
    refine ⟨by simp [Benchmark.finalize, pydiv, hd.ne'], ?_⟩
    exact div_pos (by exact_mod_cast hn) hd
  · simp [Benchmark.finalize, pydiv, Benchmark.num_runs]

/-- Witness for C7: the general part applied to the concrete
three-sample benchmark with duration 2. -/
theorem finalize_exact_and_positive_witness :
    0 < ((Benchmark.num_runs
        { latencies := [1/10, 2/10, 2/10], throughput := .negInf } : ℚ) / 2) :=
  (finalize_exact_and_positive.1
    { latencies := [1/10, 2/10, 2/10], throughput := .negInf } 2
    (by norm_num) (by decide)).2

/-- C10: the derived view `perfs` (mean latency
`runs_duration / num_runs`) is total only when `num_runs > 0`; with
zero recorded samples it performs an unguarded division by zero —
raising the raw `ZeroDivisionError` rather than returning a value or a
classified error. -/
theorem perfs_division_by_zero (b : Benchmark) :
    (b.num_runs = 0 → b.perfs = .error .zeroDivisionError)
    ∧ (b.num_runs ≠ 0 → b.perfs =
        .ok (b.runs_duration / (b.num_runs : ℚ), b.throughput)) := by
  constructor
  · intro h
    simp [Benchmark.perfs, pydiv, h]
  · intro h
    simp [Benchmark.perfs, pydiv, h]

/-- Witness for C10: the freshly created empty benchmark divides by
zero in `perfs`; a one-sample benchmark yields its mean. -/
theorem perfs_division_by_zero_witness :
    Benchmark.perfs { latencies := [], throughput := .negInf } =
      .error .zeroDivisionError :=
  (perfs_division_by_zero { latencies := [], throughput := .negInf }).1 rfl

/-- Helper: the accumulation loop succeeds on a list of finalized
benchmarks (each with samples and a positive throughput), returning
the concatenated latencies and the list of throughput values. -/
theorem mergeCollect_ok (bs : List Benchmark) (qs : List ℚ)
    (hmap : bs.map Benchmark.throughput = qs.map PyFloat.val)
    (hlat : ∀ b ∈ bs, b.latencies ≠ [])
    (hpos : ∀ q ∈ qs, 0 < q) :
    mergeCollect bs = .ok ((bs.map Benchmark.latencies).flatten, qs) := by
  induction bs generalizing qs with
  | nil =>
    cases qs with
    | nil => simp [mergeCollect]
    | cons q qs' => simp at hmap
  | cons b rest ih =>
    cases qs with
    | nil => simp at hmap
    | cons q qs' =>
      simp only [List.map_cons, List.cons.injEq] at hmap
      obtain ⟨hq, hrest⟩ := hmap
      have hlen : 0 < b.latencies.length :=
        List.length_pos.mpr (hlat b (List.mem_cons_self b rest))
      have hq0 : 0 < q := hpos q (List.mem_cons_self q qs')
      have hrec := ih qs' hrest
        (fun x hx => hlat x (List.mem_cons_of_mem _ hx))
        (fun x hx => hpos x (List.mem_cons_of_mem _ hx))
      simp [mergeCollect, hq, hlen, hq0, hrec]

/-- C5: merging a non-empty list of finalized benchmarks yields the
concatenation of the latency sequences in input order and the
unweighted arithmetic mean of the throughputs; on three finalized
inputs the latencies concatenate and the throughput is the mean of the
three. -/
theorem merge_concat_mean :
    (∀ (bs : List Benchmark) (qs : List ℚ),
      bs.map Benchmark.throughput = qs.map PyFloat.val →
      (∀ b ∈ bs, b.latencies ≠ []) →
      (∀ q ∈ qs, 0 < q) →
      bs ≠ [] →
      Benchmark.merge bs =
        .ok { latencies := (bs.map Benchmark.latencies).flatten,
              throughput := .val (qs.sum / (qs.length : ℚ)) })
    ∧ Benchmark.merge
        [ { latencies := [1, 2], throughput := .val 3 },
          { latencies := [4], throughput := .val 5 },
          { latencies := [6], throughput := .val 7 } ] =
      .ok { latencies := [1, 2, 4, 6], throughput := .val ((3 + 5 + 7) / 3) } := by
  constructor
  · intro bs qs hmap hlat hpos hne
    have hql : qs ≠ [] := by
      intro h
      subst h
      simp at hmap
      exact hne hmap
    have hlen0 : (qs.length : ℚ) ≠ 0 := by
      exact_mod_cast fun h => hql (List.length_eq_zero.mp h)
    simp [Benchmark.merge, mergeCollect_ok bs qs hmap hlat hpos, pydiv, hlen0]
  · simp [Benchmark.merge, mergeCollect, pydiv]
    norm_num

/-- Witness for C5: the general part applied to the three concrete
finalized benchmarks of the claim. -/
theorem merge_concat_mean_witness :
    Benchmark.merge
      [ { latencies := [1, 2], throughput := .val 3 },
        { latencies := [4], throughput := .val 5 },
        { latencies := [6], throughput := .val 7 } ] =
      .ok { latencies := [1, 2, 4, 6], throughput := .val 5 } := by
  have h := merge_concat_mean.1
    [ { latencies := [1, 2], throughput := PyFloat.val 3 },
      { latencies := [4], throughput := PyFloat.val 5 },
      { latencies := [6], throughput := PyFloat.val 7 } ]
    [3, 5, 7] rfl (by decide) (by norm_num) (by simp)
  rw [h]
  norm_num

/-- Helper: if any input fails one of the loop's two asserts, the
accumulation loop raises one of the two `AssertionError`s. -/
theorem mergeCollect_bad (bs : List Benchmark) (b : Benchmark)
    (hb : b ∈ bs)
    (hbad : b.latencies = [] ∨ b.throughput.gtZero = false) :
    mergeCollect bs =
      .error (.assertionError "Empty benchmark (0 latency measurements recorded)")
    ∨ mergeCollect bs =
      .error (.assertionError "Benchmark has not been finalized, throughput < 0") := by
  induction bs with
  | nil => cases hb
  | cons hd rest ih =>
    by_cases h1 : 0 < hd.latencies.length
    · cases hth : hd.throughput with
      | negInf =>
        right
        simp [mergeCollect, h1, hth]
      | val q =>
        by_cases h2 : 0 < q
        · have hb' : b ∈ rest := by
            rcases List.mem_cons.mp hb with rfl | h
            · exfalso
              rcases hbad with hl | ht
              · simp [hl] at h1
              · rw [hth] at ht
                simp [PyFloat.gtZero, h2] at ht
            · exact h
          rcases ih hb' with h | h
          · left
            simp [mergeCollect, h1, hth, h2, h]
          · right
            simp [mergeCollect, h1, hth, h2, h]
        · right
          simp [mergeCollect, h1, hth, h2]
    · left
      simp [mergeCollect, h1]

/-- C6: merging the empty list fails — with the `ZeroDivisionError`
raised when the empty throughput list reaches the mean computation
(the code's realization of `EmptyMerge`), and merging any list that
contains an input with no samples or a non-positive throughput fails
with the loop's `AssertionError` (the code's realization of
`UnfinalizedMerge`); the two failures are distinct error values. -/
theorem merge_empty_and_unfinalized :
    Benchmark.merge [] = .error .zeroDivisionError
    ∧ (∀ (bs : List Benchmark) (b : Benchmark), b ∈ bs →
        (b.latencies = [] ∨ b.throughput.gtZero = false) →
        (Benchmark.merge bs =
          .error (.assertionError "Empty benchmark (0 latency measurements recorded)")
        ∨ Benchmark.merge bs =
          .error (.assertionError "Benchmark has not been finalized, throughput < 0"))) := by
  constructor
  · simp [Benchmark.merge, mergeCollect, pydiv]
  · intro bs b hb hbad
    rcases mergeCollect_bad bs b hb hbad with h | h
    · left
      simp [Benchmark.merge, h]
    · right
      simp [Benchmark.merge, h]

/-- Witness for C6: merging a singleton list holding the default
(unfinalized) benchmark fails with one of the two assertion errors. -/
theorem merge_empty_and_unfinalized_witness :
    Benchmark.merge [{ latencies := [], throughput := .negInf }] =
      .error (.assertionError "Empty benchmark (0 latency measurements recorded)")
    ∨ Benchmark.merge [{ latencies := [], throughput := .negInf }] =
      .error (.assertionError "Benchmark has not been finalized, throughput < 0") :=
  merge_empty_and_unfinalized.2
    [{ latencies := [], throughput := .negInf }]
    { latencies := [], throughput := .negInf }
    (List.mem_cons_self _ _) (Or.inl rfl)

/-- Helper: while no `"start"` has arrived, every received value is
answered with a protocol-violation `Exception` reply and the loop is
still running. -/
theorem awaitStart_no_start (vs : List String) (h : "start" ∉ vs) :
    awaitStart vs =
      (vs.map (fun v => ChildMsg.exceptionMsg (violationText v)), false) := by
  induction vs with
  | nil => rfl
  | cons v rest ih =>
    have hv : ¬ v = "start" := fun hv => h (hv ▸ List.mem_cons_self v rest)
    have hr : "start" ∉ rest := fun hr => h (List.mem_cons_of_mem _ hr)
    simp [awaitStart, hv, ih hr]

/-- Helper: once `"start"` arrives, the loop exits, having answered
exactly the earlier non-start values. -/
theorem awaitStart_breaks (vs1 vs2 : List String) (h : "start" ∉ vs1) :
    awaitStart (vs1 ++ "start" :: vs2) =
      (vs1.map (fun v => ChildMsg.exceptionMsg (violationText v)), true) := by
  induction vs1 with
  | nil => simp [awaitStart]
  | cons v rest ih =>
    have hv : ¬ v = "start" := fun hv => h (hv ▸ List.mem_cons_self v rest)
    have hr : "start" ∉ rest := fun hr => h (List.mem_cons_of_mem _ hr)
    simp [awaitStart, hv, ih hr]

/-- Counterexample for C2: a worker failure whose classified message is
`"bad input"` produces a `Traceback` terminal message, not the
`Exception{text}` message the claim requires in the `Running` state. -/
theorem running_failure_counterexample :
    (runningStep (.err "bad input")).msg = ChildMsg.tracebackMsg "bad input"
    ∧ (runningStep (.err "bad input")).msg ≠ ChildMsg.exceptionMsg "bad input" := by
  exact ⟨rfl, by simp [runningStep]⟩

/-- C2 (amended): every worker failure — recognized or not — makes the
child send a `Traceback{text}` terminal message carrying the caught
diagnostic text; `Exception{text}` messages arise only as
protocol-violation replies while awaiting start; the two variants are
distinct constructors, so they remain distinguishable even though the
Launcher surfaces both as `ChildProcessError`. -/
theorem running_failure_traceback_only (tb t : String) (vs : List String)
    (o : WorkerOutcome) :
    runningStep (.err tb) = ⟨.tracebackMsg tb, 0, true⟩
    ∧ ChildMsg.tracebackMsg tb ≠ ChildMsg.exceptionMsg t
    ∧ (∀ m ∈ (target vs o).1, ∃ v, m = .exceptionMsg (violationText v)) := by
  refine ⟨rfl, by simp, ?_⟩
  have haux : ∀ ws : List String, ∀ m ∈ (awaitStart ws).1,
      ∃ v, m = ChildMsg.exceptionMsg (violationText v) := by
    intro ws
    induction ws with
    | nil => simp [awaitStart]
    | cons w rest ih =>
      intro m hm
      by_cases hw : w = "start"
      · simp [awaitStart, hw] at hm
      · simp only [awaitStart, hw, if_false] at hm
        rcases List.mem_cons.mp hm with rfl | hm'
        · exact ⟨w, rfl⟩
        · exact ih m hm'
  intro m hm
  have : m ∈ (awaitStart vs).1 := by
    unfold target at hm
    by_cases hs : (awaitStart vs).2 <;> simp [hs] at hm <;> exact hm
  exact haux vs m this

/-- Witness for C2 (amended), at concrete inputs. -/
theorem running_failure_traceback_only_witness :
    runningStep (.err "boom") =
      ⟨ChildMsg.tracebackMsg "boom", 0, true⟩ :=
  (running_failure_traceback_only "boom" "x" ["start"] (.ok [])).1

/-- C8: whenever the child harness reaches a terminal result (it got
past `AwaitingStart` and ran the worker), it exits with code 0 and has
closed its end of the channel, whatever the worker outcome; the
terminal message is a `Report` on success or a `Traceback` on failure,
and neither changes the exit code. -/
theorem terminated_exit_zero (vs : List String) (o : WorkerOutcome)
    (r : HarnessResult) (h : (target vs o).2 = some r) :
    r.exitCode = 0 ∧ r.channelClosed = true
    ∧ ((∃ p, r.msg = .reportMsg p) ∨ (∃ t, r.msg = .tracebackMsg t)) := by
  have hr : r = runningStep o := by
    unfold target at h
    by_cases hs : (awaitStart vs).2 <;> simp [hs] at h
    exact h.symm
  subst hr
  cases o with
  | ok p => exact ⟨rfl, rfl, Or.inl ⟨p, rfl⟩⟩
  | err tb => exact ⟨rfl, rfl, Or.inr ⟨tb, rfl⟩⟩

/-- Witness for C8: a failing worker still exits 0 with the channel
closed. -/
theorem terminated_exit_zero_witness :
    (⟨ChildMsg.tracebackMsg "boom", 0, true⟩ : HarnessResult).exitCode = 0
    ∧ (⟨ChildMsg.tracebackMsg "boom", 0, true⟩ : HarnessResult).channelClosed = true
    ∧ ((∃ p, (⟨ChildMsg.tracebackMsg "boom", 0, true⟩ : HarnessResult).msg = .reportMsg p)
       ∨ (∃ t, (⟨ChildMsg.tracebackMsg "boom", 0, true⟩ : HarnessResult).msg = .tracebackMsg t)) :=
  terminated_exit_zero ["start"] (.err "boom") _ rfl

/-- C9: in `AwaitingStart` the worker never runs before `Start` is
received: a sequence without `"start"` leaves the child in the loop
(no terminal result, the worker is not invoked), with every received
value answered by an `Exception` reply describing the violation; once
`"start"` arrives, exactly the earlier non-start values have been
answered and only then does the worker run. -/
theorem awaiting_start_protocol (vs1 vs2 : List String) (o : WorkerOutcome)
    (h : "start" ∉ vs1) :
    target (vs1 ++ "start" :: vs2) o =
      (vs1.map (fun v => ChildMsg.exceptionMsg (violationText v)),
        some (runningStep o))
    ∧ target vs1 o =
      (vs1.map (fun v => ChildMsg.exceptionMsg (violationText v)), none) := by
  constructor
  · unfold target
    rw [awaitStart_breaks vs1 vs2 h]
    simp
  · unfold target
    rw [awaitStart_no_start vs1 h]
    simp

/-- Witness for C9: one bogus value before `"start"` is answered with
an exception reply, and without `"start"` the worker never runs. -/
theorem awaiting_start_protocol_witness :
    target ["bogus", "start"] (.ok [("ok", "true")]) =
      ([ChildMsg.exceptionMsg (violationText "bogus")],
        some (runningStep (.ok [("ok", "true")])))
    ∧ target ["bogus"] (.ok [("ok", "true")]) =
      ([ChildMsg.exceptionMsg (violationText "bogus")], none) :=
  awaiting_start_protocol ["bogus"] [] (.ok [("ok", "true")]) (by simp)
